import Mathlib

/-!
Shallow embedding of `aplatam/train.py`: the CLI entry point that parses
arguments, reads an INI config file, enumerates rasters, validates their
band counts, and delegates to the external `build_trainset`.

External effects are modelled explicitly:
  * the file system and raster metadata live in an `Env` record;
  * functions that raise Python exceptions return `Except`;
  * `main` and the validator additionally return a trace of observable
    events (files opened, the delegate call, the final log line).
-/

deriving instance DecidableEq for Except

namespace Aplatam

/-- Python `logging.INFO` constant. -/
def logging_INFO : Nat := 20

/-- Python `logging.DEBUG` constant. -/
def logging_DEBUG : Nat := 10

/-- Numeric value of a decimal digit character, `none` otherwise. -/
def digitVal (c : Char) : Option Nat :=
  if c.isDigit then some (c.toNat - 48) else none

/-- Left fold turning a run of decimal digits into a number; any
non-digit character makes the whole parse fail. -/
def digitsToNat : List Char → Nat → Option Nat
  | [], n => some n
  | c :: cs, n =>
    match digitVal c with
    | some d => digitsToNat cs (10 * n + d)
    | none => none

/-- Embedding of Python's `int(...)` conversion used by `argparse` for
`type=int` options, on optionally-signed decimal strings. -/
def str_toInt (s : String) : Option Int :=
  match s.data with
  | [] => none
  | ['-'] => none
  | ['+'] => none
  | '-' :: rest => (digitsToNat rest 0).map (fun n => -(n : Int))
  | '+' :: rest => (digitsToNat rest 0).map (fun n => (n : Int))
  | ds => (digitsToNat ds 0).map (fun n => (n : Int))

/-- Whether a token is option-like, i.e. begins with a dash (argparse
treats such tokens as optional arguments, not positionals). -/
def startsWithDash (s : String) : Bool :=
  match s.data with
  | '-' :: _ => true
  | _ => false

/-- The `argparse.Namespace` produced by `parse_args`: one field per
`add_argument` call in the source (`--version` exits and has no field). -/
structure Namespace where
  rasters_dir : String
  vector : String
  config_file : String
  output_model : String
  seed : Option Int
  temp_dir : String
  loglevel : Option Nat
deriving Repr, DecidableEq

/-- Option-processing loop of `parse_args`: consumes the token list,
accumulating positional arguments and setting option fields, mirroring the
`add_argument` declarations in the source (store options take one value,
`-v`/`-vv` are `store_const` for the shared `loglevel` destination,
`--version` exits). Unrecognized option tokens are a usage error. -/
def parseTokens : List String → List String → Namespace → Except String (List String × Namespace)
  | [], pos, ns => Except.ok (pos.reverse, ns)
  | "--version" :: _, _, _ => Except.error "version"
  | "-c" :: v :: rest, pos, ns => parseTokens rest pos { ns with config_file := v }
  | "--config-file" :: v :: rest, pos, ns => parseTokens rest pos { ns with config_file := v }
  | "-o" :: v :: rest, pos, ns => parseTokens rest pos { ns with output_model := v }
  | "--output-model" :: v :: rest, pos, ns => parseTokens rest pos { ns with output_model := v }
  | "--seed" :: v :: rest, pos, ns =>
    match str_toInt v with
    | some n => parseTokens rest pos { ns with seed := some n }
    | none => Except.error "argument --seed: invalid int value"
  | "--temp-dir" :: v :: rest, pos, ns => parseTokens rest pos { ns with temp_dir := v }
  | "-v" :: rest, pos, ns => parseTokens rest pos { ns with loglevel := some logging_INFO }
  | "--verbose" :: rest, pos, ns => parseTokens rest pos { ns with loglevel := some logging_INFO }
  | "-vv" :: rest, pos, ns => parseTokens rest pos { ns with loglevel := some logging_DEBUG }
  | "--very-verbose" :: rest, pos, ns => parseTokens rest pos { ns with loglevel := some logging_DEBUG }
  | tok :: rest, pos, ns =>
    if startsWithDash tok then Except.error "unrecognized arguments"
    else parseTokens rest (tok :: pos) ns

/-- Embedding of `parse_args`. `tempdir` is the ambient
`tempfile.gettempdir()` value used as the `--temp-dir` default; the other
defaults are the literals from the source. Exactly two positional
arguments (`rasters_dir`, `vector`) are required. -/
def parse_args (tempdir : String) (args : List String) : Except String Namespace :=
  match parseTokens args []
      { rasters_dir := "", vector := "", config_file := "default.cfg",
        output_model := "model.h5", seed := none, temp_dir := tempdir,
        loglevel := none } with
  | Except.error e => Except.error e
  | Except.ok (pos, ns) =>
    match pos with
    | [rd, vec] => Except.ok { ns with rasters_dir := rd, vector := vec }
    | _ => Except.error "usage"

/-- A parsed INI file, as `configparser` exposes it: an ordered list of
sections, each a list of string-valued options. -/
abbrev IniFile := List (String × List (String × String))

/-- Errors observable at the `read_config_file` interface. Python could in
principle signal a missing file (`FileNotFoundError`) or a missing mapping
key (`KeyError`); the embedding keeps both constructors so the absence of
the former is expressible. -/
inductive ConfigError
  | keyError (key : String)
  | fileNotFound (path : String)
deriving Repr, DecidableEq

/-- Embedding of `read_config_file`. `files` is the file system's view of
parseable config files. `configparser.ConfigParser.read` silently skips
files that cannot be opened, leaving the parser empty, so a missing file
contributes no sections; `config['train']` then raises `KeyError` when no
`train` section exists, and otherwise `dict(config['train'])` yields the
section's options. -/
def read_config_file (files : String → Option IniFile) (config_file : String) :
    Except ConfigError (List (String × String)) :=
  let sections : IniFile := (files config_file).getD []
  match sections.lookup "train" with
  | some opts => Except.ok opts
  | none => Except.error (ConfigError.keyError "train")

/-- The ambient world `main` runs in: the system temp directory, the
parseable config files, the raster enumeration per directory, the band
count stored in each raster's header, and each vector file's CRS. -/
structure Env where
  tempdir : String
  files : String → Option IniFile
  rasterFiles : String → List String
  bands : String → Nat
  crs : String → String

/-- Modelled from the spec: `all_raster_files` (from `aplatam.util`, not
present under `src/`) is "a raster-file enumeration utility (given a
directory, returns ordered raster paths by extension)"; the enumeration
itself is the environment's. -/
def all_raster_files (env : Env) (dir : String) : List String :=
  env.rasterFiles dir

/-- Embedding of `get_raster_band_count`: opens the raster and returns the
band count from its header. -/
def get_raster_band_count (bands : String → Nat) (raster_path : String) : Nat :=
  bands raster_path

/-- Embedding of `get_vector_crs`: opens the vector file and returns its
coordinate reference system. -/
def get_vector_crs (crs : String → String) (vector_path : String) : String :=
  crs vector_path

/-- The `RuntimeError` message raised by the validator, from the format
string in the source. -/
def bandCountErrorMsg (count : Nat) : String :=
  "Rasters must have exactly 4 bands (was " ++ toString count ++ ")"

/-- Embedding of `validate_rasters_band_count`. The first component is the
trace of raster paths opened (each `get_raster_band_count` call opens one
file); the second is the outcome: `ok true` as the source returns, or the
`RuntimeError` raised at the first raster whose band count is not 4. -/
def validate_rasters_band_count (bands : String → Nat) :
    List String → List String × Except String Bool
  | [] => ([], Except.ok true)
  | raster_path :: rest =>
    let count := get_raster_band_count bands raster_path
    if count ≠ 4 then
      ([raster_path], Except.error (bandCountErrorMsg count))
    else
      let v := validate_rasters_band_count bands rest
      (raster_path :: v.1, v.2)

/-- Observable events of a `main` run: rasters opened by the validator,
the vector file opened by `fiona.open`, the single delegate call to the
external `build_trainset`, and the final `Done` log line. -/
inductive Event
  | openRaster (path : String)
  | openVector (path : String)
  | build_trainset (rasters : List String) (vector : String)
      (config : List (String × String)) (temp_dir : String)
  | logDone
deriving Repr, DecidableEq

/-- Errors that abort a `main` run, tagged by the Python exception class
that propagates. -/
inductive MainError
  | parseError (msg : String)
  | configError (e : ConfigError)
  | runtimeError (msg : String)
deriving Repr, DecidableEq

/-- Boolean recognizer for the delegate-call event. -/
def isBuildEvent : Event → Bool
  | Event.build_trainset _ _ _ _ => true
  | _ => false

/-- Boolean recognizer for a vector-file open event. -/
def isOpenVectorEvent : Event → Bool
  | Event.openVector _ => true
  | _ => false

/-- Embedding of `main`: parse arguments, read the config file, enumerate
rasters, validate band counts, call `build_trainset`, log `Done`. Returns
the event trace together with the outcome; every raised exception aborts
the rest of the pipeline, exactly as in the source. -/
def main (env : Env) (args : List String) : List Event × Except MainError Unit :=
  match parse_args env.tempdir args with
  | Except.error m => ([], Except.error (MainError.parseError m))
  | Except.ok ns =>
    match read_config_file env.files ns.config_file with
    | Except.error e => ([], Except.error (MainError.configError e))
    | Except.ok config =>
      let rasters := all_raster_files env ns.rasters_dir
      match validate_rasters_band_count env.bands rasters with
      | (opened, Except.error m) =>
        (opened.map Event.openRaster, Except.error (MainError.runtimeError m))
      | (opened, Except.ok _) =>
        (opened.map Event.openRaster ++
          [Event.build_trainset rasters ns.vector config ns.temp_dir, Event.logDone],
         Except.ok ())

/-- A concrete example environment: three 4-band rasters, a vector file,
and a config file whose `train` section sets `epochs = 10`. -/
def envOk : Env where
  tempdir := "/tmp"
  files := fun _ => some [("train", [("epochs", "10")])]
  rasterFiles := fun _ => ["r1.tif", "r2.tif", "r3.tif"]
  bands := fun _ => 4
  crs := fun _ => "EPSG:4326"

/-- Like `envOk`, but the second raster has only 3 bands. -/
def envBad : Env where
  tempdir := "/tmp"
  files := fun _ => some [("train", [("epochs", "10")])]
  rasterFiles := fun _ => ["r1.tif", "bad.tif", "r3.tif"]
  bands := fun p => if p = "bad.tif" then 3 else 4
  crs := fun _ => "EPSG:4326"

/-- Like `envOk`, but the rasters directory is empty. -/
def envEmpty : Env where
  tempdir := "/tmp"
  files := fun _ => some [("train", [("epochs", "10")])]
  rasterFiles := fun _ => []
  bands := fun _ => 4
  crs := fun _ => "EPSG:4326"

/-- A concrete example command line: just the two positional arguments. -/
def argvEx : List String := ["rasters", "labels.shp"]

/-- The namespace `parse_args` produces from `argvEx` with temp
directory `/tmp`: all optional arguments at their defaults. -/
def nsEx : Namespace where
  rasters_dir := "rasters"
  vector := "labels.shp"
  config_file := "default.cfg"
  output_model := "model.h5"
  seed := none
  temp_dir := "/tmp"
  loglevel := none

/-! Helper lemmas about the validator. -/

theorem validate_all_valid (bands : String → Nat) (rasters : List String)
    (h : ∀ p ∈ rasters, bands p = 4) :
    validate_rasters_band_count bands rasters = (rasters, Except.ok true) := by
  induction rasters with
  | nil => rfl
  | cons p rest ih =>
    have hp : bands p = 4 := h p (by simp)
    have hrest : ∀ q ∈ rest, bands q = 4 := fun q hq => h q (by simp [hq])
    simp [validate_rasters_band_count, get_raster_band_count, hp, ih hrest]

theorem validate_first_offender (bands : String → Nat) (rasters : List String) (p : String)
    (h : rasters.find? (fun q => bands q != 4) = some p) :
    (validate_rasters_band_count bands rasters).2 =
      Except.error (bandCountErrorMsg (bands p)) := by
  induction rasters with
  | nil => simp [List.find?] at h
  | cons a rest ih =>
    by_cases ha : bands a = 4
    · rw [List.find?_cons_of_neg _ (by simp [ha])] at h
      simpa [validate_rasters_band_count, get_raster_band_count, ha] using ih h
    · rw [List.find?_cons_of_pos _ (by simp [ha])] at h
      cases h
      simp [validate_rasters_band_count, get_raster_band_count, ha]

theorem validate_opened_until_offender (bands : String → Nat) (rasters : List String) (p : String)
    (h : rasters.find? (fun q => bands q != 4) = some p) :
    (validate_rasters_band_count bands rasters).1 =
      rasters.takeWhile (fun q => bands q == 4) ++ [p] := by
  induction rasters with
  | nil => simp [List.find?] at h
  | cons a rest ih =>
    by_cases ha : bands a = 4
    · rw [List.find?_cons_of_neg _ (by simp [ha])] at h
      simp [validate_rasters_band_count, get_raster_band_count, ha, List.takeWhile_cons, ih h]
    · rw [List.find?_cons_of_pos _ (by simp [ha])] at h
      cases h
      simp [validate_rasters_band_count, get_raster_band_count, ha, List.takeWhile_cons]

theorem validate_error_exists (bands : String → Nat) (rasters : List String)
    (h : ∃ p ∈ rasters, bands p ≠ 4) :
    ∃ m, (validate_rasters_band_count bands rasters).2 = Except.error m := by
  have hs : (rasters.find? (fun q => bands q != 4)).isSome := by
    rw [List.find?_isSome]
    rcases h with ⟨p, hp, hne⟩
    exact ⟨p, hp, by simpa using hne⟩
  rcases Option.isSome_iff_exists.mp hs with ⟨p, hp⟩
  exact ⟨_, validate_first_offender bands rasters p hp⟩

/-- C1: whenever some raster in the list has a band count other than 4,
`validate_rasters_band_count` raises a `RuntimeError` at the first
mismatching raster in path order (the one `find?` locates), and the error
message mentions the offending band count but carries no information about
which file failed: it is the fixed format string instantiated with the
count alone. The opened-file trace shows the loop stops at that first
offender: only the leading all-valid prefix and the offender itself are
ever opened. -/
theorem C1_first_offender_message (bands : String → Nat) (rasters : List String) (p : String)
    (h : rasters.find? (fun q => bands q != 4) = some p) :
    (validate_rasters_band_count bands rasters).2 =
      Except.error ("Rasters must have exactly 4 bands (was " ++ toString (bands p) ++ ")")
    ∧ (validate_rasters_band_count bands rasters).1 =
      rasters.takeWhile (fun q => bands q == 4) ++ [p] :=
  ⟨validate_first_offender bands rasters p h,
   validate_opened_until_offender bands rasters p h⟩

/-- Witness for C1: a list whose second raster has 3 bands. -/
theorem C1_first_offender_message_witness :
    (["a.tif", "b.tif"].find?
        (fun q => (fun r : String => if r = "a.tif" then (4 : Nat) else 3) q != 4) = some "b.tif")
    ∧ ((validate_rasters_band_count (fun r : String => if r = "a.tif" then (4 : Nat) else 3)
          ["a.tif", "b.tif"]).2 =
        Except.error ("Rasters must have exactly 4 bands (was " ++
          toString ((fun r : String => if r = "a.tif" then (4 : Nat) else 3) "b.tif") ++ ")")
       ∧ (validate_rasters_band_count (fun r : String => if r = "a.tif" then (4 : Nat) else 3)
          ["a.tif", "b.tif"]).1 =
        ["a.tif", "b.tif"].takeWhile
          (fun q => (fun r : String => if r = "a.tif" then (4 : Nat) else 3) q == 4) ++ ["b.tif"]) :=
  ⟨by decide,
   C1_first_offender_message (fun r : String => if r = "a.tif" then (4 : Nat) else 3)
     ["a.tif", "b.tif"] "b.tif" (by decide)⟩

/-- C3: when every raster in the list has band count 4 (including the
empty list), `validate_rasters_band_count` returns `True`; being a pure
function of the band counts, it modifies no state, and its only
observable effect is opening each raster once, in order. -/
theorem C3_all_valid_returns_true (bands : String → Nat) (rasters : List String)
    (h : ∀ p ∈ rasters, bands p = 4) :
    validate_rasters_band_count bands rasters = (rasters, Except.ok true) :=
  validate_all_valid bands rasters h

/-- Witness for C3: two rasters, both with 4 bands. -/
theorem C3_all_valid_returns_true_witness :
    (∀ p ∈ ["a.tif", "b.tif"], (fun _ : String => (4 : Nat)) p = 4)
    ∧ validate_rasters_band_count (fun _ : String => (4 : Nat)) ["a.tif", "b.tif"] =
        (["a.tif", "b.tif"], Except.ok true) :=
  ⟨by decide, C3_all_valid_returns_true (fun _ : String => (4 : Nat)) ["a.tif", "b.tif"] (by decide)⟩

/-- C5: reading a config file whose `train` section holds exactly the
option `epochs = 10` yields the one-entry string-valued mapping. -/
theorem C5_config_epochs (files : String → Option IniFile) (path : String) (ini : IniFile)
    (hf : files path = some ini)
    (ht : ini.lookup "train" = some [("epochs", "10")]) :
    read_config_file files path = Except.ok [("epochs", "10")] := by
  simp [read_config_file, hf, ht]

/-- Witness for C5: a file system with one config file. -/
theorem C5_config_epochs_witness :
    ((fun _ : String => some [("train", [("epochs", "10")])]) "default.cfg"
        = some [("train", [("epochs", "10")])])
    ∧ ([("train", [("epochs", "10")])] : IniFile).lookup "train" = some [("epochs", "10")]
    ∧ read_config_file (fun _ : String => some [("train", [("epochs", "10")])]) "default.cfg"
        = Except.ok [("epochs", "10")] :=
  ⟨rfl, by decide,
   C5_config_epochs (fun _ : String => some [("train", [("epochs", "10")])]) "default.cfg"
     [("train", [("epochs", "10")])] rfl (by decide)⟩

/-- C6: reading a config file that exists but lacks a `train` section
fails with the `KeyError` for key `train`; `read_config_file` contains no
handler, so the error propagates to the caller. -/
theorem C6_missing_train_section (files : String → Option IniFile) (path : String) (ini : IniFile)
    (hf : files path = some ini) (ht : ini.lookup "train" = none) :
    read_config_file files path = Except.error (ConfigError.keyError "train") := by
  simp [read_config_file, hf, ht]

/-- Witness for C6: a config file with only an `other` section. -/
theorem C6_missing_train_section_witness :
    ((fun _ : String => some [("other", [("x", "1")])]) "default.cfg"
        = some [("other", [("x", "1")])])
    ∧ ([("other", [("x", "1")])] : IniFile).lookup "train" = none
    ∧ read_config_file (fun _ : String => some [("other", [("x", "1")])]) "default.cfg"
        = Except.error (ConfigError.keyError "train") :=
  ⟨rfl, by decide,
   C6_missing_train_section (fun _ : String => some [("other", [("x", "1")])]) "default.cfg"
     [("other", [("x", "1")])] rfl (by decide)⟩

/-- C7: with the two positional arguments, `--seed 42 --verbose` yields
`seed = 42` and `loglevel = logging.INFO`; `--very-verbose` instead yields
`loglevel = logging.DEBUG`; with neither verbosity flag `loglevel` stays
unset (`none`). -/
theorem C7_seed_and_loglevel :
    parse_args "/tmp" ["rd", "vec", "--seed", "42", "--verbose"] =
      Except.ok { rasters_dir := "rd", vector := "vec", config_file := "default.cfg",
                  output_model := "model.h5", seed := some 42, temp_dir := "/tmp",
                  loglevel := some logging_INFO }
    ∧ parse_args "/tmp" ["rd", "vec", "--seed", "42", "--very-verbose"] =
      Except.ok { rasters_dir := "rd", vector := "vec", config_file := "default.cfg",
                  output_model := "model.h5", seed := some 42, temp_dir := "/tmp",
                  loglevel := some logging_DEBUG }
    ∧ parse_args "/tmp" ["rd", "vec", "--seed", "42"] =
      Except.ok { rasters_dir := "rd", vector := "vec", config_file := "default.cfg",
                  output_model := "model.h5", seed := some 42, temp_dir := "/tmp",
                  loglevel := none } :=
  ⟨by decide, by decide, by decide⟩

/-- C9: when the path names no readable config file, `configparser`'s
read step silently skips it, so `read_config_file` never surfaces a
file-not-found error: it fails with the very `KeyError` for `train` that
an existing file without a `train` section produces, making the two cases
indistinguishable at this interface. -/
theorem C9_missing_file_keyerror (files : String → Option IniFile) (path : String)
    (hf : files path = none) :
    read_config_file files path = Except.error (ConfigError.keyError "train")
    ∧ (∀ path2 ini, files path2 = some ini → ini.lookup "train" = none →
        read_config_file files path2 = read_config_file files path) := by
  constructor
  · simp [read_config_file, hf]
  · intro path2 ini hf2 ht2
    simp [read_config_file, hf, hf2, ht2]

/-- Witness for C9: a file system with a single config file `has.cfg`
lacking a `train` section; `missing.cfg` does not exist. -/
theorem C9_missing_file_keyerror_witness :
    ((fun s : String => if s = "has.cfg" then some ([("other", [("x", "1")])] : IniFile) else none)
        "missing.cfg" = none)
    ∧ (read_config_file
          (fun s : String => if s = "has.cfg" then some ([("other", [("x", "1")])] : IniFile)
            else none)
          "missing.cfg" = Except.error (ConfigError.keyError "train")
       ∧ (∀ path2 ini,
            (fun s : String => if s = "has.cfg" then some ([("other", [("x", "1")])] : IniFile)
              else none) path2 = some ini →
            ini.lookup "train" = none →
            read_config_file
                (fun s : String => if s = "has.cfg" then some ([("other", [("x", "1")])] : IniFile)
                  else none) path2 =
              read_config_file
                (fun s : String => if s = "has.cfg" then some ([("other", [("x", "1")])] : IniFile)
                  else none)
                "missing.cfg")) :=
  ⟨by decide,
   C9_missing_file_keyerror
     (fun s : String => if s = "has.cfg" then some ([("other", [("x", "1")])] : IniFile) else none)
     "missing.cfg" (by decide)⟩

/-- C2: when some raster in the enumerated set has a band count other
than 4, the run of `main` aborts with an error and its event trace
contains no `build_trainset` call at all. -/
theorem C2_abort_before_build (env : Env) (args : List String) (ns : Namespace)
    (hp : parse_args env.tempdir args = Except.ok ns)
    (hb : ∃ p ∈ all_raster_files env ns.rasters_dir, env.bands p ≠ 4) :
    ((main env args).1.countP isBuildEvent = 0)
    ∧ ∃ err, (main env args).2 = Except.error err := by
  rcases validate_error_exists env.bands (all_raster_files env ns.rasters_dir) hb with ⟨m, hm⟩
  rcases hc : read_config_file env.files ns.config_file with e | config
  · have hmain : main env args = ([], Except.error (MainError.configError e)) := by
      simp [main, hp, hc]
    rw [hmain]
    exact ⟨rfl, ⟨_, rfl⟩⟩
  · rcases hval : validate_rasters_band_count env.bands (all_raster_files env ns.rasters_dir)
      with ⟨opened, r⟩
    have hr : r = Except.error m := by rw [hval] at hm; exact hm
    subst hr
    have hmain : main env args =
        (opened.map Event.openRaster, Except.error (MainError.runtimeError m)) := by
      simp [main, hp, hc, hval]
    rw [hmain]
    refine ⟨?_, ⟨_, rfl⟩⟩
    rw [List.countP_eq_zero]
    intro e he
    rcases List.mem_map.mp he with ⟨p, -, rfl⟩
    simp [isBuildEvent]

/-- Witness for C2: `envBad` has a 3-band raster among the enumerated
rasters, so `main` aborts without any delegate call. -/
theorem C2_abort_before_build_witness :
    (parse_args envBad.tempdir argvEx = Except.ok nsEx)
    ∧ (∃ p ∈ all_raster_files envBad nsEx.rasters_dir, envBad.bands p ≠ 4)
    ∧ (((main envBad argvEx).1.countP isBuildEvent = 0)
       ∧ ∃ err, (main envBad argvEx).2 = Except.error err) :=
  ⟨by decide, by decide,
   C2_abort_before_build envBad argvEx nsEx (by decide) (by decide)⟩

/-- C4: when every enumerated raster has 4 bands and the config file has
a `train` section, `main`'s event trace is exactly the raster opens
followed by a single `build_trainset` call — receiving the enumerated
raster list, the vector path, the parsed config mapping, and the temp
directory — and then the `Done` log line; the run succeeds. -/
theorem C4_build_called_once (env : Env) (args : List String) (ns : Namespace)
    (config : List (String × String))
    (hp : parse_args env.tempdir args = Except.ok ns)
    (hc : read_config_file env.files ns.config_file = Except.ok config)
    (hb : ∀ p ∈ all_raster_files env ns.rasters_dir, env.bands p = 4) :
    main env args =
      ((all_raster_files env ns.rasters_dir).map Event.openRaster ++
        [Event.build_trainset (all_raster_files env ns.rasters_dir) ns.vector config ns.temp_dir,
         Event.logDone], Except.ok ())
    ∧ (main env args).1.countP isBuildEvent = 1
    ∧ (main env args).1.getLast? = some Event.logDone := by
  have hv := validate_all_valid env.bands (all_raster_files env ns.rasters_dir) hb
  have hmain : main env args =
      ((all_raster_files env ns.rasters_dir).map Event.openRaster ++
        [Event.build_trainset (all_raster_files env ns.rasters_dir) ns.vector config ns.temp_dir,
         Event.logDone], Except.ok ()) := by
    simp [main, hp, hc, hv]
  refine ⟨hmain, ?_, ?_⟩
  · rw [hmain]
    simp [List.countP_append, List.countP_map, List.countP_cons, isBuildEvent, Function.comp]
  · rw [hmain]
    simp

/-- Witness for C4: `envOk` enumerates three 4-band rasters; the
delegate is called once with them. -/
theorem C4_build_called_once_witness :
    (parse_args envOk.tempdir argvEx = Except.ok nsEx)
    ∧ (read_config_file envOk.files nsEx.config_file = Except.ok [("epochs", "10")])
    ∧ (∀ p ∈ all_raster_files envOk nsEx.rasters_dir, envOk.bands p = 4)
    ∧ (main envOk argvEx =
        ((all_raster_files envOk nsEx.rasters_dir).map Event.openRaster ++
          [Event.build_trainset (all_raster_files envOk nsEx.rasters_dir) nsEx.vector
            [("epochs", "10")] nsEx.temp_dir, Event.logDone], Except.ok ())
       ∧ (main envOk argvEx).1.countP isBuildEvent = 1
       ∧ (main envOk argvEx).1.getLast? = some Event.logDone) :=
  ⟨by decide, by decide, by decide,
   C4_build_called_once envOk argvEx nsEx [("epochs", "10")] (by decide) (by decide) (by decide)⟩

/-- C8 counterexample: a complete, successful run of `main` (three
4-band rasters, valid config; the delegate is called and `Done` is
logged) in whose event trace the vector file is opened zero times, not
exactly once: `main` never calls `get_vector_crs`, so `fiona.open` never
runs. -/
theorem C8_counterexample_vector_never_opened :
    (main envOk argvEx).2 = Except.ok ()
    ∧ (main envOk argvEx).1.countP isOpenVectorEvent = 0
    ∧ ¬ (main envOk argvEx).1.countP isOpenVectorEvent = 1 :=
  ⟨by decide, by decide, by decide⟩

/-- C8 (amended): during every run of `main` the vector file is opened
zero times — `get_vector_crs`, the only code that opens it to read its
CRS, is never invoked by `main`; the vector path is merely passed through
to `build_trainset`. -/
theorem C8_amended_never_opens_vector (env : Env) (args : List String) :
    (main env args).1.countP isOpenVectorEvent = 0 := by
  rcases hp : parse_args env.tempdir args with m | ns
  · simp [main, hp]
  · rcases hc : read_config_file env.files ns.config_file with e | config
    · simp [main, hp, hc]
    · rcases hval : validate_rasters_band_count env.bands (all_raster_files env ns.rasters_dir)
        with ⟨opened, r⟩
      rcases r with m | b
      · have hmain : main env args =
            (opened.map Event.openRaster, Except.error (MainError.runtimeError m)) := by
          simp [main, hp, hc, hval]
        rw [hmain, List.countP_eq_zero]
        intro e he
        rcases List.mem_map.mp he with ⟨p, -, rfl⟩
        simp [isOpenVectorEvent]
      · have hmain : main env args =
            (opened.map Event.openRaster ++
              [Event.build_trainset (all_raster_files env ns.rasters_dir) ns.vector config
                ns.temp_dir, Event.logDone], Except.ok ()) := by
          simp [main, hp, hc, hval]
        rw [hmain, List.countP_eq_zero]
        intro e he
        rcases List.mem_append.mp he with h1 | h2
        · rcases List.mem_map.mp h1 with ⟨p, -, rfl⟩
          simp [isOpenVectorEvent]
        · simp only [List.mem_cons, List.not_mem_nil, or_false] at h2
          rcases h2 with rfl | rfl
          · simp [isOpenVectorEvent]
          · simp [isOpenVectorEvent]

/-- C10: the empty raster list validates vacuously — `True` is returned
and no raster is opened — and `main` still calls `build_trainset` once,
with the empty raster list. -/
theorem C10_empty_raster_list (env : Env) (args : List String) (ns : Namespace)
    (config : List (String × String))
    (hp : parse_args env.tempdir args = Except.ok ns)
    (hc : read_config_file env.files ns.config_file = Except.ok config)
    (he : all_raster_files env ns.rasters_dir = []) :
    validate_rasters_band_count env.bands [] = ([], Except.ok true)
    ∧ main env args =
        ([Event.build_trainset [] ns.vector config ns.temp_dir, Event.logDone],
         Except.ok ()) := by
  refine ⟨rfl, ?_⟩
  simp [main, hp, hc, he, validate_rasters_band_count]

/-- Witness for C10: `envEmpty` enumerates no rasters at all. -/
theorem C10_empty_raster_list_witness :
    (parse_args envEmpty.tempdir argvEx = Except.ok nsEx)
    ∧ (read_config_file envEmpty.files nsEx.config_file = Except.ok [("epochs", "10")])
    ∧ (all_raster_files envEmpty nsEx.rasters_dir = [])
    ∧ (validate_rasters_band_count envEmpty.bands [] = ([], Except.ok true)
       ∧ main envEmpty argvEx =
          ([Event.build_trainset [] nsEx.vector [("epochs", "10")] nsEx.temp_dir, Event.logDone],
           Except.ok ())) :=
  ⟨by decide, by decide, by decide,
   C10_empty_raster_list envEmpty argvEx nsEx [("epochs", "10")] (by decide) (by decide)
     (by decide)⟩

end Aplatam
